import Mathlib

/-!
Verification of the firewall agent (src/false/agent/src/main.rs) against its
natural-language specification.

The agent keeps a map from application name to a `FirewallRule` (three exact
match allow-lists: domains, IP addresses, protocols).  `check_connection`
looks the calling application up and returns a boolean verdict: `true`
(allowed) only when all three dimensions of the attempt are contained in the
rule's allow-lists, `false` (denied) otherwise, in particular when no rule is
registered for the application.

The embedding below translates the Rust source directly:
  * `IpAddr` mirrors `std::net::IpAddr` (a parsed address, compared exactly);
  * the `HashMap<String, FirewallRule>` behind the mutex is modelled as an
    association list with unique keys, looked up by `getRule`;
  * `Vec::contains` becomes `List.contains`;
  * the `bool` verdict is kept as `Bool` (`true` = allowed, `false` = denied).
-/

/-- Mirror of `std::net::IpAddr`: a parsed IPv4 or IPv6 address, compared
structurally (exact match). -/
inductive IpAddr where
  | v4 (a b c d : Nat)
  | v6 (segments : List Nat)
deriving DecidableEq, Repr

instance : BEq IpAddr := ⟨fun a b => decide (a = b)⟩

instance : LawfulBEq IpAddr where
  eq_of_beq h := by simpa [BEq.beq] using h
  rfl := by simp [BEq.beq]

/-- Mirror of the Rust `FirewallRule` struct: one application and its three
exact-match allow-lists. -/
structure FirewallRule where
  app_name : String
  allowed_domains : List String
  allowed_ips : List IpAddr
  allowed_protocols : List String
deriving DecidableEq, Repr

/-- The rule table held by `FirewallAgent` (`HashMap<String, FirewallRule>`),
modelled as an association list from application name to rule. -/
abbrev RuleTable : Type := List (String × FirewallRule)

/-- Mirror of `HashMap::get` on the rule table: the rule registered under
`app`, if any. -/
def getRule (rules : RuleTable) (app : String) : Option FirewallRule :=
  (List.find? (fun p => p.1 == app) rules).map Prod.snd

/-- Mirror of `FirewallAgent::check_connection`: look up the rule for
`app_name`; if present, allow exactly when the domain, the IP and the
protocol are each contained in the corresponding allow-list; if absent,
deny. -/
def check_connection (rules : RuleTable) (app_name : String) (domain : String)
    (ip : IpAddr) (protocol : String) : Bool :=
  match getRule rules app_name with
  | some rule =>
      rule.allowed_domains.contains domain
        && rule.allowed_ips.contains ip
        && rule.allowed_protocols.contains protocol
  | none => false

/-- The three dimensions of a connection attempt, used to state claims about
which dimension of a rule failed. -/
inductive Dimension where
  | domain
  | ip
  | protocol
deriving DecidableEq, Repr

/-- Claim C1: for every rule table containing a rule registered under
`app_name` and every attempt with that `app_name`, `check_connection`
returns allowed (`true`) iff the attempt's domain is a member of the rule's
`allowed_domains`, its IP a member of `allowed_ips`, and its protocol a
member of `allowed_protocols`. -/
theorem check_connection_allowed_iff (rules : RuleTable) (app_name : String)
    (rule : FirewallRule) (domain : String) (ip : IpAddr) (protocol : String)
    (h : getRule rules app_name = some rule) :
    check_connection rules app_name domain ip protocol = true ↔
      (domain ∈ rule.allowed_domains ∧ ip ∈ rule.allowed_ips ∧
        protocol ∈ rule.allowed_protocols) := by
  simp [check_connection, h, List.contains, and_assoc]

/-- Witness for C1: a concrete table and attempt where the rule is registered,
all three memberships hold, and the verdict is allowed. -/
theorem check_connection_allowed_iff_witness :
    getRule [("mail", FirewallRule.mk "mail" ["smtp.example.com"]
        [IpAddr.v4 203 0 113 5] ["smtps"])] "mail" =
      some (FirewallRule.mk "mail" ["smtp.example.com"]
        [IpAddr.v4 203 0 113 5] ["smtps"]) ∧
      (check_connection [("mail", FirewallRule.mk "mail" ["smtp.example.com"]
          [IpAddr.v4 203 0 113 5] ["smtps"])] "mail" "smtp.example.com"
          (IpAddr.v4 203 0 113 5) "smtps" = true ↔
        ("smtp.example.com" ∈ ["smtp.example.com"] ∧
          IpAddr.v4 203 0 113 5 ∈ [IpAddr.v4 203 0 113 5] ∧
          "smtps" ∈ ["smtps"])) :=
  ⟨by decide,
    check_connection_allowed_iff _ _ (FirewallRule.mk "mail"
      ["smtp.example.com"] [IpAddr.v4 203 0 113 5] ["smtps"]) _ _ _
      (by decide)⟩

/-- Claim C2: for every rule table and every attempt whose `app_name` has no
entry in the table, `check_connection` denies (returns `false`, the code's
encoding of a denied verdict), whatever the domain, IP and protocol are:
the engine fails closed on an unknown application. -/
theorem check_connection_unknown_app_denied (rules : RuleTable)
    (app_name : String) (domain : String) (ip : IpAddr) (protocol : String)
    (h : getRule rules app_name = none) :
    check_connection rules app_name domain ip protocol = false := by
  simp [check_connection, h]

/-- Witness for C2: a concrete table with no entry for the attempting app;
the verdict is denied. -/
theorem check_connection_unknown_app_denied_witness :
    getRule [("mail", FirewallRule.mk "mail" ["smtp.example.com"]
        [IpAddr.v4 203 0 113 5] ["smtps"])] "browser" = none ∧
      check_connection [("mail", FirewallRule.mk "mail" ["smtp.example.com"]
        [IpAddr.v4 203 0 113 5] ["smtps"])] "browser" "example.com"
        (IpAddr.v4 93 184 216 34) "https" = false :=
  ⟨by decide, check_connection_unknown_app_denied _ _ _ _ _ (by decide)⟩

/-- Claim C3: a registered rule with an empty allow-list in some dimension
denies every attempt for that app: an empty list is deny-all for that
dimension, never an implicit wildcard. -/
theorem check_connection_empty_list_denies (rules : RuleTable)
    (app_name : String) (rule : FirewallRule)
    (h : getRule rules app_name = some rule)
    (hempty : rule.allowed_domains = [] ∨ rule.allowed_ips = [] ∨
      rule.allowed_protocols = []) :
    ∀ domain ip protocol,
      check_connection rules app_name domain ip protocol = false := by
  intro domain ip protocol
  rcases hempty with he | he | he <;>
    simp [check_connection, h, he, List.contains]

/-- Witness for C3: a rule with empty `allowed_ips`; the attempt matches the
domain and the protocol but is denied. -/
theorem check_connection_empty_list_denies_witness :
    getRule [("mail", FirewallRule.mk "mail" ["smtp.example.com"] []
        ["smtps"])] "mail" =
      some (FirewallRule.mk "mail" ["smtp.example.com"] [] ["smtps"]) ∧
      check_connection [("mail", FirewallRule.mk "mail" ["smtp.example.com"]
        [] ["smtps"])] "mail" "smtp.example.com" (IpAddr.v4 203 0 113 5)
        "smtps" = false :=
  ⟨by decide,
    check_connection_empty_list_denies _ _ (FirewallRule.mk "mail"
      ["smtp.example.com"] [] ["smtps"]) (by decide) (Or.inr (Or.inl rfl))
      "smtp.example.com" (IpAddr.v4 203 0 113 5) "smtps"⟩

/-- Counterexample for C4: the code's verdict is a bare boolean, so the
failing dimension is not identifiable from it.  With the concrete rule for
"mail", an attempt failing only on the domain and an attempt failing only on
the protocol both yield the verdict `false`; no function from verdicts to
dimensions can report `domain` for the first and `protocol` for the
second. -/
theorem check_connection_dimension_not_identifiable :
    check_connection [("mail", FirewallRule.mk "mail" ["smtp.example.com"]
        [IpAddr.v4 203 0 113 5] ["smtps"])] "mail" "evil.example.org"
        (IpAddr.v4 203 0 113 5) "smtps" = false ∧
      check_connection [("mail", FirewallRule.mk "mail" ["smtp.example.com"]
        [IpAddr.v4 203 0 113 5] ["smtps"])] "mail" "smtp.example.com"
        (IpAddr.v4 203 0 113 5) "smtp" = false ∧
      ¬ ∃ f : Bool → Dimension,
        f (check_connection [("mail", FirewallRule.mk "mail"
            ["smtp.example.com"] [IpAddr.v4 203 0 113 5] ["smtps"])] "mail"
            "evil.example.org" (IpAddr.v4 203 0 113 5) "smtps") =
          Dimension.domain ∧
        f (check_connection [("mail", FirewallRule.mk "mail"
            ["smtp.example.com"] [IpAddr.v4 203 0 113 5] ["smtps"])] "mail"
            "smtp.example.com" (IpAddr.v4 203 0 113 5) "smtp") =
          Dimension.protocol := by
  refine ⟨by decide, by decide, ?_⟩
  rintro ⟨f, h1, h2⟩
  have hc1 : check_connection [("mail", FirewallRule.mk "mail"
      ["smtp.example.com"] [IpAddr.v4 203 0 113 5] ["smtps"])] "mail"
      "evil.example.org" (IpAddr.v4 203 0 113 5) "smtps" = false := by decide
  have hc2 : check_connection [("mail", FirewallRule.mk "mail"
      ["smtp.example.com"] [IpAddr.v4 203 0 113 5] ["smtps"])] "mail"
      "smtp.example.com" (IpAddr.v4 203 0 113 5) "smtp" = false := by decide
  rw [hc1] at h1
  rw [hc2] at h2
  rw [h1] at h2
  exact Dimension.noConfusion h2

/-- Amended claim C4: for every attempt against a registered rule where at
least one dimension does not match, `check_connection` denies (returns
`false`); the boolean verdict, however, carries no reason, so the failing
dimension is not recoverable from it. -/
theorem check_connection_mismatch_denied (rules : RuleTable)
    (app_name : String) (rule : FirewallRule) (domain : String) (ip : IpAddr)
    (protocol : String) (h : getRule rules app_name = some rule)
    (hmiss : ¬ (domain ∈ rule.allowed_domains ∧ ip ∈ rule.allowed_ips ∧
      protocol ∈ rule.allowed_protocols)) :
    check_connection rules app_name domain ip protocol = false := by
  rcases hb : check_connection rules app_name domain ip protocol with _ | _
  · rfl
  · exact absurd ((check_connection_allowed_iff rules app_name rule domain ip
      protocol h).mp hb) hmiss

/-- Witness for the amended C4: the protocol-mismatch attempt from the spec's
scenario is denied. -/
theorem check_connection_mismatch_denied_witness :
    check_connection [("mail", FirewallRule.mk "mail" ["smtp.example.com"]
      [IpAddr.v4 203 0 113 5] ["smtps"])] "mail" "smtp.example.com"
      (IpAddr.v4 203 0 113 5) "smtp" = false :=
  check_connection_mismatch_denied _ _ (FirewallRule.mk "mail"
    ["smtp.example.com"] [IpAddr.v4 203 0 113 5] ["smtps"]) _ _ _
    (by decide) (by decide)

/-- Claim C10: the verdict depends only on the rule-table entry for the
attempt's `app_name`.  Two tables that agree on that entry (present and
equal, or absent in both) give the same verdict for every attempt with that
`app_name`: rules registered for other applications never influence the
decision. -/
theorem check_connection_depends_only_on_app_entry (t1 t2 : RuleTable)
    (app_name : String) (h : getRule t1 app_name = getRule t2 app_name) :
    ∀ domain ip protocol,
      check_connection t1 app_name domain ip protocol =
        check_connection t2 app_name domain ip protocol := by
  intro domain ip protocol
  simp [check_connection, h]

/-- Witness for C10: two tables differing in an unrelated entry but agreeing
on the entry for "mail" give the same verdict. -/
theorem check_connection_depends_only_on_app_entry_witness :
    getRule [("mail", FirewallRule.mk "mail" ["smtp.example.com"]
        [IpAddr.v4 203 0 113 5] ["smtps"])] "mail" =
      getRule [("browser", FirewallRule.mk "browser" ["example.com"]
          [IpAddr.v4 93 184 216 34] ["https"]),
        ("mail", FirewallRule.mk "mail" ["smtp.example.com"]
          [IpAddr.v4 203 0 113 5] ["smtps"])] "mail" ∧
      check_connection [("mail", FirewallRule.mk "mail" ["smtp.example.com"]
        [IpAddr.v4 203 0 113 5] ["smtps"])] "mail" "smtp.example.com"
        (IpAddr.v4 203 0 113 5) "smtps" =
      check_connection [("browser", FirewallRule.mk "browser" ["example.com"]
          [IpAddr.v4 93 184 216 34] ["https"]),
        ("mail", FirewallRule.mk "mail" ["smtp.example.com"]
          [IpAddr.v4 203 0 113 5] ["smtps"])] "mail" "smtp.example.com"
        (IpAddr.v4 203 0 113 5) "smtps" :=
  ⟨by decide,
    check_connection_depends_only_on_app_entry _ _ _ (by decide)
      "smtp.example.com" (IpAddr.v4 203 0 113 5) "smtps"⟩

/-- A log event as the spec describes it: the fields of the attempt together
with the verdict.  The source declares no such type; it is included so that
the frame-effect claims about the log buffer can be stated against the
state-passing embedding of `check_connection`. -/
structure LogEvent where
  app_name : String
  domain : String
  ip : IpAddr
  protocol : String
  verdict : Bool
deriving DecidableEq, Repr

/-- The observable state of the `FirewallAgent`: the rule table plus the
sequence of buffered log events (the spec's LogBuffer; the source holds no
log state, so in the embedding of the source this component is simply never
touched). -/
structure AgentState where
  rules : RuleTable
  logs : List LogEvent
deriving DecidableEq, Repr

/-- State-passing embedding of `FirewallAgent::check_connection`: the source
takes `&self`, locks the rule map, reads it, and returns the boolean
verdict; it writes nothing — no rule is modified and no log event is
produced (`collect_logs` is an empty stub and nothing else records events) —
so the agent state is returned unchanged alongside the verdict. -/
def checkConnectionS (s : AgentState) (app_name : String) (domain : String)
    (ip : IpAddr) (protocol : String) : Bool × AgentState :=
  (check_connection s.rules app_name domain ip protocol, s)

/-- Counterexample for C5: evaluating an attempt appends no `LogEvent` at
all.  Starting from a concrete agent state with an empty log buffer, after
one `check_connection` call the buffer still holds 0 events, not 1 as the
claim requires. -/
theorem check_connection_appends_no_event :
    ((checkConnectionS (AgentState.mk [("mail", FirewallRule.mk "mail"
        ["smtp.example.com"] [IpAddr.v4 203 0 113 5] ["smtps"])] [])
        "mail" "smtp.example.com" (IpAddr.v4 203 0 113 5) "smtps").2.logs.length
      = 0) ∧
      ¬ ((checkConnectionS (AgentState.mk [("mail", FirewallRule.mk "mail"
        ["smtp.example.com"] [IpAddr.v4 203 0 113 5] ["smtps"])] [])
        "mail" "smtp.example.com" (IpAddr.v4 203 0 113 5) "smtps").2.logs.length
      = 0 + 1) := by
  constructor
  · rfl
  · decide

/-- Amended claim C5: `check_connection` appends no `LogEvent` whatsoever:
the log-collection path is an unimplemented stub, so every evaluation leaves
the log buffer exactly as it was (zero events are appended, not one). -/
theorem check_connection_leaves_logs_unchanged (s : AgentState)
    (app_name : String) (domain : String) (ip : IpAddr) (protocol : String) :
    (checkConnectionS s app_name domain ip protocol).2.logs = s.logs :=
  rfl

/-- Claim C9: `check_connection` is read-only with respect to the rule
table: after the call the mapping from application name to rule is exactly
what it was before — evaluation never adds, removes or alters a rule. -/
theorem check_connection_preserves_rules (s : AgentState)
    (app_name : String) (domain : String) (ip : IpAddr) (protocol : String) :
    (checkConnectionS s app_name domain ip protocol).2.rules = s.rules :=
  rfl

/-- Modelled from the spec: the source's `collect_logs` / `send_logs_to_server`
are empty stubs, so the LogBuffer of spec section 4.3 has no implementation in
the source; this is the buffer the spec describes, an ordered sequence of
events awaiting shipment. -/
structure LogBuffer where
  events : List LogEvent
deriving DecidableEq, Repr

/-- Modelled from the spec: `record(event)` appends one event to the
buffer. -/
def LogBuffer.record (b : LogBuffer) (e : LogEvent) : LogBuffer :=
  LogBuffer.mk (b.events ++ [e])

/-- Modelled from the spec: `drain()` atomically removes and returns all
currently buffered events, leaving the buffer empty. -/
def LogBuffer.drain (b : LogBuffer) : List LogEvent × LogBuffer :=
  (b.events, LogBuffer.mk [])

/-- Claim C7: `drain` is idempotent-safe.  For every buffer state, the first
drain leaves the buffer empty, and a second drain with no intervening
`record` returns the empty sequence. -/
theorem drain_twice_empty (b : LogBuffer) :
    (b.drain.2).events = [] ∧ ((b.drain.2).drain).1 = [] :=
  ⟨rfl, rfl⟩

/-- Phases of the shipping scheduler's state machine (spec section 4.4);
only the phases reachable in the modelled loop are kept. -/
inductive SchedPhase where
  | Idle
  | Sending
deriving DecidableEq, Repr

/-- State of the shipping loop: the log buffer, the current phase, a clock
counting elapsed time units, and the batches handed to the network
collaborator so far (the record of network calls made). -/
structure ShipState where
  buffer : LogBuffer
  phase : SchedPhase
  clock : Nat
  sent : List (List LogEvent)
deriving DecidableEq, Repr

/-- The loop interval from `main.rs` (`Duration::from_secs(60)`), the spec's
default of 60 time units. -/
def defaultShippingInterval : Nat := 60

/-- Modelled from the spec: one tick of the shipping loop — the bodies of
`collect_logs` and `send_logs_to_server` are unimplemented stubs in the
source, so the per-tick behaviour is taken from spec section 4.4: drain the
buffer; if the drained sequence is empty, return to Idle immediately with no
network call; otherwise hand the batch to the collector and return to Idle.
Each tick advances the clock by the interval. -/
def shipTick (interval : Nat) (s : ShipState) : ShipState :=
  if (s.buffer.drain).1.isEmpty then
    ShipState.mk (s.buffer.drain).2 SchedPhase.Idle (s.clock + interval)
      s.sent
  else
    ShipState.mk (s.buffer.drain).2 SchedPhase.Idle (s.clock + interval)
      (s.sent ++ [(s.buffer.drain).1])

/-- The shipping loop run for `n` ticks: the loop in `main.rs` repeats the
tick forever, so its behaviour is the family of states after every finite
number of ticks. -/
def shipRun (interval : Nat) (s : ShipState) : Nat → ShipState
  | 0 => s
  | n + 1 => shipTick interval (shipRun interval s n)

theorem shipTick_clock (interval : Nat) (s : ShipState) :
    (shipTick interval s).clock = s.clock + interval := by
  unfold shipTick
  split <;> rfl

/-- Claim C8: the shipping loop is total over tick counts (it runs forever)
on the fixed interval whose default is 60 time units — after `n` ticks the
clock reads `n * 60` more — and a tick that drains an empty buffer returns
to Idle immediately with the sent-batch record unchanged: no network call is
made. -/
theorem shipping_loop_behaviour (s : ShipState) (n : Nat)
    (h : s.buffer.events = []) :
    defaultShippingInterval = 60 ∧
      (shipRun defaultShippingInterval s n).clock = s.clock + n * 60 ∧
      shipTick defaultShippingInterval s =
        ShipState.mk (LogBuffer.mk []) SchedPhase.Idle (s.clock + 60)
          s.sent := by
  refine ⟨rfl, ?_, ?_⟩
  · induction n with
    | zero => simp [shipRun]
    | succ k ih =>
        rw [shipRun, shipTick_clock, ih, defaultShippingInterval]
        ring
  · unfold shipTick
    simp [LogBuffer.drain, h, defaultShippingInterval]

/-- Witness for C8: the loop started on an empty buffer, run for three
ticks. -/
theorem shipping_loop_behaviour_witness :
    (ShipState.mk (LogBuffer.mk []) SchedPhase.Idle 0 []).buffer.events
        = [] ∧
      (defaultShippingInterval = 60 ∧
        (shipRun defaultShippingInterval
          (ShipState.mk (LogBuffer.mk []) SchedPhase.Idle 0 []) 3).clock
          = 0 + 3 * 60 ∧
        shipTick defaultShippingInterval
            (ShipState.mk (LogBuffer.mk []) SchedPhase.Idle 0 []) =
          ShipState.mk (LogBuffer.mk []) SchedPhase.Idle (0 + 60) []) :=
  ⟨rfl, shipping_loop_behaviour (ShipState.mk (LogBuffer.mk [])
    SchedPhase.Idle 0 []) 3 rfl⟩
